import Mathlib

/-!
Verification development for the mea-libris web server (Go).

The repository is shallowly embedded: each Go handler becomes a pure Lean
function from the incoming session values, the request, and the outcomes of
its external collaborators (token exchange, revoke HTTP call, books
listing) to an explicit result record.  Go's session semantics are modelled
faithfully: `session.Values` is an in-memory map mutated by the handler
(including by `defer`red statements, which run at function return, after any
`session.Save`), while `session.Save(r, w)` snapshots the values into the
persisted cookie.  A handler result therefore carries both the final
in-memory values and the persisted (`Save`d) values, since only the latter
are seen by a subsequent request.

`src/main.go` contains two concatenated revisions of the program; both
revisions of `HandleOAuthCallback` are embedded (`handleCallbackV1` for the
first, `handleCallbackV2` for the second) because they place the
state-clearing `defer` differently.
-/

namespace MeaLibris

/-! ## app package: Error and Wrap (src/app/handlers.go) -/

/-- `http.StatusText` for the status codes this program uses. -/
def statusText (status : Nat) : String :=
  if status = 200 then "OK"
  else if status = 307 then "Temporary Redirect"
  else if status = 400 then "Bad Request"
  else if status = 401 then "Unauthorized"
  else if status = 502 then "Bad Gateway"
  else if status = 500 then "Internal Server Error"
  else ""

/-- `app.Error`: an error to be converted into an HTTP status code and message. -/
structure Error where
  message : String
  status : Nat
deriving DecidableEq, Repr

/-- A Go `error` value as seen by `app.Wrap`: either a plain error (from
`errors.New` / `fmt.Errorf`) or already an `*app.Error`. -/
inductive GoErr where
  | plain (msg : String)
  | appErr (message : String) (status : Nat)
deriving DecidableEq, Repr

/-- The `Error()` method: a plain error renders its message; an `*app.Error`
renders `"[%d %s] %s"` with the status text. -/
def GoErr.errorString : GoErr → String
  | .plain m => m
  | .appErr m s => "[" ++ toString s ++ " " ++ statusText s ++ "] " ++ m

/-- `app.Wrap(err, status)`: `nil` maps to `nil`; an `*app.Error` is returned
unmodified; any other error is wrapped as `&Error{err.Error(), status}`. -/
def Wrap : Option GoErr → Nat → Option Error
  | none, _ => none
  | some (.appErr m s), _ => some ⟨m, s⟩
  | some e, status => some ⟨e.errorString, status⟩

/-! ## libris package: Book and CSV encoding (src/libris, src/unnamed/part_005) -/

/-- `libris.Book`.  `AverageRating` is a Go `float64`; ratings are modelled as
rationals, with the decimal rendering of `fmt.Sprintf("%.2f", ·)` below. -/
structure Book where
  title : String
  authors : List String
  identifier : String
  identifierType : String
  averageRating : Rat
  publisher : String
  fileType : String
deriving DecidableEq, Repr

/-- The last two decimal digits of a natural number, as a two-character string. -/
def pad2 (n : Nat) : String :=
  String.mk [Nat.digitChar (n / 10 % 10), Nat.digitChar (n % 10)]

/-- Decimal model of `fmt.Sprintf("%.2f", x)`: round to the nearest hundredth
and print with exactly two digits after the decimal point.  (Go rounds the
underlying binary double; the two representations agree on every rating value
exactly representable at two decimals, and the structural claims proved here
do not depend on tie-breaking.) -/
def sprintf2f (q : Rat) : String :=
  let n : Int := round (q * 100)
  if n < 0 then
    "-" ++ toString ((-n).toNat / 100) ++ "." ++ pad2 ((-n).toNat % 100)
  else
    toString (n.toNat / 100) ++ "." ++ pad2 (n.toNat % 100)

/-- `(*Book).marshalCSVRow`: the book as a CSV record.  The `myRating` column
is always empty; `FileType` and `IdentifierType` have no column. -/
def marshalCSVRow (b : Book) : List String :=
  [b.title,
   String.intercalate ", " b.authors,
   b.identifier,
   "",
   sprintf2f b.averageRating,
   b.publisher]

/-- The fixed CSV header record. -/
def csvHeader : List String :=
  ["Title", "Author", "ISBN", "My Rating", "Average Rating", "Publisher"]

/-- `Books.marshalCSV`: the header record followed by one record per book. -/
def marshalCSV (bs : List Book) : List (List String) :=
  csvHeader :: bs.map marshalCSVRow

/-! ## Session and request model (src/main.go) -/

/-- The in-memory `session.Values` map: the two keys this program uses.  A
`none` entry covers both an absent key and a key set to `nil` (in either case
the Go type assertion `.(string)` yields `ok == false`). -/
structure SessionValues where
  state : Option String
  accessToken : Option String
deriving DecidableEq, Repr

/-- The parts of an `*http.Request` the handlers read.  `r.FormValue(k)`
returns `""` when the parameter is absent, so the form values are plain
strings with `""` meaning "not present". -/
structure Request where
  urlScheme : String
  host : String
  formState : String
  formError : String
  formCode : String
deriving DecidableEq, Repr

/-! ## Router (src/unnamed/part_000, `app.NewRouter("/google")`) -/

/-- The path the provider's router is built with: `NewRouter("/google")`. -/
def routeBase : String := "/google"

/-- `Router.Route`: prepends the base path. -/
def route (path : String) : String := routeBase ++ path

/-- `Router.OAuthCallback()`: the fixed, provider-registered callback path. -/
def oauthCallbackPath : String := route "/oauth2callback"

/-- `Router.Connect()`: the connect-confirmation endpoint. -/
def connectPath : String := route "/connect"

/-! ## Redirect-URL resolution (src/main.go `buildRedirectURL`, `defaultTo`) -/

/-- `defaultTo(v, def)`: `def` when `v` is empty, else `v` itself. -/
def defaultTo (v d : String) : String := if v = "" then d else v

/-- `buildRedirectURL(r, router)`: `scheme://host` plus the fixed callback
path, with the scheme defaulting to `"http"` when the request URL has none. -/
def buildRedirectURL (r : Request) : String :=
  let scheme := if r.urlScheme = "" then "http" else r.urlScheme
  scheme ++ "://" ++ r.host ++ oauthCallbackPath

/-- The redirect URL used by `HandleConnect`:
`defaultTo(googleRedirectURL, buildRedirectURL(r, goog))`. -/
def resolveRedirectURL (googleRedirectURL : String) (r : Request) : String :=
  defaultTo googleRedirectURL (buildRedirectURL r)

/-! ## Application error constructors (src/main.go) -/

/-- `errInvalidState`. -/
def errInvalidState (expected actual : String) : GoErr :=
  .plain ("Invalid state parameter: expected " ++ expected ++ "; got " ++ actual)

/-- `errCallbackError`. -/
def errCallbackError (message : String) : GoErr :=
  .plain ("Callback received error: " ++ message)

/-- `errCodeNotFound`. -/
def errCodeNotFound : GoErr := .plain "Code not found."

/-- `errAccessTokenNotFound`. -/
def errAccessTokenNotFound : GoErr :=
  .plain "User not authorized. Use the /google/connect endpoint."

/-- `errTokenExchangeError` (the underlying cause is rendered into the message). -/
def errTokenExchangeError (cause : String) : GoErr :=
  .plain ("Problem with token exchange: " ++ cause)

/-- `errCantRevokeToken`.  (Dead code in the source: the `defer
resp.Body.Close()` placed before the `err != nil` check panics first whenever
this branch would be reached; see `handleDisconnect`.) -/
def errCantRevokeToken (cause : String) : GoErr :=
  .plain ("Failed to revoke token for the current user: " ++ cause)

/-! ## app.Handler.ServeHTTP (src/app/handlers.go) -/

/-- An HTTP error reply as produced by `http.Error`. -/
structure HttpReply where
  status : Nat
  body : String
deriving DecidableEq, Repr

/-- `app.Handler.ServeHTTP`: when the wrapped function returns a non-nil
`*app.Error`, `http.Error(w, err.Message, err.Status)` writes the message
(followed by a newline) with that status code; otherwise nothing extra. -/
def serveError : Option Error → Option HttpReply
  | none => none
  | some e => some ⟨e.status, e.message ++ "\n"⟩

/-! ## HandleBooks (src/main.go lines 76-104) -/

/-- The collaborators `HandleBooks` drives once a token is found:
`newGoogleBooksClient`, `getGoogleBooks` and `encodeBooks`.  Each may fail
with an (already message-wrapped) error. -/
structure BooksCollab where
  newClient : String → Except GoErr Unit
  getBooks : String → Except GoErr (List Book)
  encode : List Book → Request → Except GoErr Unit

/-- Result of `HandleBooks`: the returned `*app.Error` (none on success) and
whether the books-listing collaborator chain was entered at all. -/
structure BooksResult where
  err : Option Error
  collabInvoked : Bool
deriving DecidableEq, Repr

/-- `HandleBooks`: without an `accessToken` string in the session, fails with
`errAccessTokenNotFound` wrapped at 401 and never touches the collaborators;
otherwise runs the client/list/encode chain, wrapping any failure at 500. -/
def handleBooks (c : BooksCollab) (session : SessionValues) (r : Request) :
    BooksResult :=
  match session.accessToken with
  | none => ⟨Wrap (some errAccessTokenNotFound) 401, false⟩
  | some token =>
    match c.newClient token with
    | .error e => ⟨Wrap (some e) 500, true⟩
    | .ok _ =>
      match c.getBooks token with
      | .error e => ⟨Wrap (some e) 500, true⟩
      | .ok bs =>
        match c.encode bs r with
        | .error e => ⟨Wrap (some e) 500, true⟩
        | .ok _ => ⟨none, true⟩

/-! ## HandleConnect (src/main.go lines 106-135) -/

/-- Model of `oauth2.Config.AuthCodeURL(state)` after `config.RedirectURL`
was set: the provider authorization URL carrying the redirect URL and the
state token (query-parameter escaping and ordering abstracted). -/
def authCodeURL (redirectURL state : String) : String :=
  "https://accounts.google.com/o/oauth2/auth?redirect_uri=" ++ redirectURL ++
    "&response_type=code&state=" ++ state

/-- Result of `HandleConnect`: returned error, final in-memory session
values, `Save`d values (none when `session.Save` was never called), body
lines written, redirect target, and the response status. -/
structure ConnectResult where
  err : Option Error
  values : SessionValues
  saved : Option SessionValues
  body : List String
  redirect : Option String
  status : Nat
deriving DecidableEq, Repr

/-- `HandleConnect`: with an `accessToken` in the session, prints
`"Connected!"` (status 200 implicit) and returns; otherwise generates a fresh
state (`randomString()`, modelled as the `fresh` argument), stores and saves
it, resolves the redirect URL and redirects (307) to the provider. -/
def handleConnect (googleRedirectURL fresh : String) (session : SessionValues)
    (r : Request) : ConnectResult :=
  match session.accessToken with
  | some _ => ⟨none, session, none, ["Connected!"], none, 200⟩
  | none =>
    let values := { session with state := some fresh }
    let redirectURL := resolveRedirectURL googleRedirectURL r
    ⟨none, values, some values, [], some (authCodeURL redirectURL fresh), 307⟩

/-! ## HandleDisconnect (src/main.go lines 137-166) -/

/-- Outcome of the revoke call `http.Get(revokeURL)`: either a response came
back (with some HTTP status code — the handler never reads it) or the
transport failed, in which case Go's `http.Get` returns a nil `*Response`. -/
inductive RevokeResult where
  | response (httpStatus : Nat)
  | transportError (msg : String)
deriving DecidableEq, Repr

/-- A Go function outcome: a normal return, or a runtime panic. -/
inductive HResult (α : Type) where
  | ok (a : α)
  | panicked (msg : String)
deriving DecidableEq, Repr

/-- Result of a normally returning `HandleDisconnect`. -/
structure DisconnectResult where
  err : Option Error
  values : SessionValues
  saved : Option SessionValues
  body : List String
deriving DecidableEq, Repr

/-- `HandleDisconnect`: without a token, reports nothing was done.  With a
token it calls `http.Get` on the revoke URL and then executes
`defer resp.Body.Close()`: evaluating `resp.Body` dereferences `resp`, which
is nil exactly when the transport errored, so that path panics before the
`err != nil` check can return `errCantRevokeToken`.  When a response came
back (any status), both session entries are set to nil and saved. -/
def handleDisconnect (revoke : String → RevokeResult) (session : SessionValues) :
    HResult DisconnectResult :=
  match session.accessToken with
  | none => .ok ⟨none, session, none, ["User wasn't connected. Nothing was done."]⟩
  | some token =>
    match revoke token with
    | .transportError _ =>
      .panicked "runtime error: invalid memory address or nil pointer dereference"
    | .response _ =>
      let values : SessionValues := ⟨none, none⟩
      .ok ⟨none, values, some values, ["User disconnected!"]⟩

/-! ## HandleOAuthCallback (both revisions) -/

/-- Outcome of `config.Exchange(ctx, code)`: a token (only its access-token
string is kept by the caller) or a failure. -/
inductive ExchangeResult where
  | token (accessToken : String)
  | failure (msg : String)
deriving DecidableEq, Repr

/-- Result of `HandleOAuthCallback`: returned error, final in-memory session
values (after the deferred `session.Values["state"] = nil`, which runs at
function return — after any `session.Save`), `Save`d values, and redirect. -/
structure CallbackResult where
  err : Option Error
  values : SessionValues
  saved : Option SessionValues
  redirect : Option String
deriving DecidableEq, Repr

/-- `HandleOAuthCallback`, first revision (src/main.go lines 168-213): the
state-clearing `defer` is registered right after reading the session state,
so the in-memory `state` is nil at every return.  On the success path
`session.Save` runs before the deferred clear, so the *saved* session still
holds the state.  Failure paths never call `Save`. -/
def handleCallbackV1 (exchange : String → ExchangeResult) (session : SessionValues)
    (r : Request) : CallbackResult :=
  let sessionState := session.state.getD ""
  let ok := session.state.isSome
  if !ok || r.formState != sessionState then
    ⟨Wrap (some (errInvalidState sessionState r.formState)) 400,
     { session with state := none }, none, none⟩
  else if r.formError != "" then
    ⟨Wrap (some (errCallbackError r.formError)) 401,
     { session with state := none }, none, none⟩
  else if r.formCode == "" then
    ⟨Wrap (some errCodeNotFound) 400, { session with state := none }, none, none⟩
  else
    match exchange r.formCode with
    | .failure m =>
      ⟨Wrap (some (errTokenExchangeError m)) 500,
       { session with state := none }, none, none⟩
    | .token t =>
      let savedVals := { session with accessToken := some t }
      ⟨none, { savedVals with state := none }, some savedVals, some connectPath⟩

/-- `HandleOAuthCallback`, second revision (src/main.go lines 688-731): the
state-clearing `defer` is registered only after the state, error and code
checks, so the first three failure returns leave the in-memory `state`
untouched; missing code maps to 502 (`http.StatusBadGateway`) here.  As in
the first revision, the success-path `Save` precedes the deferred clear. -/
def handleCallbackV2 (exchange : String → ExchangeResult) (session : SessionValues)
    (r : Request) : CallbackResult :=
  let sessionState := session.state.getD ""
  let ok := session.state.isSome
  if !ok || r.formState != sessionState then
    ⟨Wrap (some (errInvalidState sessionState r.formState)) 400, session, none, none⟩
  else if r.formError != "" then
    ⟨Wrap (some (errCallbackError r.formError)) 401, session, none, none⟩
  else if r.formCode == "" then
    ⟨Wrap (some errCodeNotFound) 502, session, none, none⟩
  else
    match exchange r.formCode with
    | .failure m =>
      ⟨Wrap (some (errTokenExchangeError m)) 500,
       { session with state := none }, none, none⟩
    | .token t =>
      let savedVals := { session with accessToken := some t }
      ⟨none, { savedVals with state := none }, some savedVals, some connectPath⟩

end MeaLibris

namespace MeaLibris

/-! ### Theorems: C9, C10 -/

/-- C9: `app.Wrap(err, status)` returns nil exactly when `err` is nil; an
`*app.Error` argument is returned unchanged with the status argument ignored;
any other error is wrapped with `Message = err.Error()` and the given status. -/
theorem wrap_spec :
    (∀ (e : Option GoErr) (s : Nat), Wrap e s = none ↔ e = none) ∧
    (∀ (m : String) (s s' : Nat), Wrap (some (.appErr m s)) s' = some ⟨m, s⟩) ∧
    (∀ (m : String) (s : Nat),
      Wrap (some (.plain m)) s = some ⟨(GoErr.plain m).errorString, s⟩) := by
  refine ⟨?_, fun m s s' => rfl, fun m s => rfl⟩
  intro e s
  cases e with
  | none => simp [Wrap]
  | some g => cases g <;> simp [Wrap]

/-- C10: the CSV encoding is the fixed header record followed by exactly one
record per book, in order; every data record has exactly 6 fields, the
`My Rating` field (index 3) empty, the authors (index 1) joined by `", "`, the
average rating (index 4) rendered with exactly two digits after the decimal
point; and the record is independent of the book's `FileType` and
`IdentifierType`. -/
theorem marshalCSV_spec :
    (∀ bs : List Book, (marshalCSV bs).length = bs.length + 1) ∧
    (∀ bs : List Book, (marshalCSV bs).head? = some csvHeader) ∧
    (∀ (bs : List Book) (i : Nat),
      (marshalCSV bs).get? (i + 1) = (bs.get? i).map marshalCSVRow) ∧
    (∀ b : Book,
      (marshalCSVRow b).length = 6 ∧
      (marshalCSVRow b).get? 3 = some "" ∧
      (marshalCSVRow b).get? 1 = some (String.intercalate ", " b.authors) ∧
      (marshalCSVRow b).get? 4 = some (sprintf2f b.averageRating)) ∧
    (∀ q : Rat, ∃ s t : String, sprintf2f q = s ++ "." ++ t ∧ t.length = 2) ∧
    (∀ (b : Book) (ft it : String),
      marshalCSVRow { b with fileType := ft, identifierType := it } =
        marshalCSVRow b) := by
  refine ⟨fun bs => by simp [marshalCSV], fun bs => rfl, ?_, ?_, ?_, fun b ft it => rfl⟩
  · intro bs i
    simp [marshalCSV, List.getElem?_map]
  · intro b
    exact ⟨rfl, rfl, rfl, rfl⟩
  · intro q
    unfold sprintf2f
    by_cases h : round (q * 100) < 0
    · refine ⟨"-" ++ toString ((-round (q * 100)).toNat / 100),
        pad2 ((-round (q * 100)).toNat % 100), ?_, ?_⟩
      · simp [h, String.append_assoc]
      · simp [pad2, String.length]
    · refine ⟨toString ((round (q * 100)).toNat / 100),
        pad2 ((round (q * 100)).toNat % 100), ?_, ?_⟩
      · simp [h]
      · simp [pad2, String.length]

/-! ### Theorems: the OAuth handlers (C1..C8) -/

/-- C1 [refuted by the code]: replaying the same valid callback request is
NOT rejected.  The deferred `session.Values["state"] = nil` runs only after
`session.Save` (and failure paths never save), so the persisted session still
holds the state after a successful callback; the second identical call passes
state validation and succeeds instead of failing with `InvalidState`. -/
theorem callback_replay_not_rejected :
    (handleCallbackV1 (fun _ => .token "tok") ⟨some "st1", none⟩
        ⟨"", "example.com", "st1", "", "c0"⟩).saved = some ⟨some "st1", some "tok"⟩ ∧
    (handleCallbackV1 (fun _ => .token "tok") ⟨some "st1", some "tok"⟩
        ⟨"", "example.com", "st1", "", "c0"⟩).err = none ∧
    (handleCallbackV1 (fun _ => .token "tok") ⟨some "st1", some "tok"⟩
        ⟨"", "example.com", "st1", "", "c0"⟩).redirect = some connectPath := by
  exact ⟨by decide, by decide, by decide⟩

/-- C2 counterexample: in the second revision of `HandleOAuthCallback`, a
callback whose query `state` differs from the session's stored `state` fails
with `InvalidState` but leaves the session's `state` entry in place — the
state-clearing `defer` there is only registered after the code check. -/
theorem callbackV2_invalidState_keeps_state :
    (handleCallbackV2 (fun _ => .token "tok") ⟨some "st1", none⟩
        ⟨"", "example.com", "bad", "", "c0"⟩).values.state = some "st1" ∧
    (handleCallbackV2 (fun _ => .token "tok") ⟨some "st1", none⟩
        ⟨"", "example.com", "bad", "", "c0"⟩).err =
      some ⟨"Invalid state parameter: expected st1; got bad", 400⟩ := by
  exact ⟨by decide, by decide⟩

/-- C2 amended: in the first revision the in-memory session `state` entry is
nil after `HandleOAuthCallback` returns, whatever the outcome; in the second
revision this holds for every request that passes the state check, carries no
`error` parameter and a non-empty `code`. -/
theorem callback_state_cleared :
    (∀ (ex : String → ExchangeResult) (s : SessionValues) (r : Request),
      (handleCallbackV1 ex s r).values.state = none) ∧
    (∀ (ex : String → ExchangeResult) (s : SessionValues) (r : Request),
      s.state = some r.formState → r.formError = "" → r.formCode ≠ "" →
      (handleCallbackV2 ex s r).values.state = none) := by
  constructor
  · intro ex s r
    unfold handleCallbackV1
    rcases h : ex r.formCode with t | m <;> simp only [h]
    all_goals repeat' split
    all_goals rfl
  · intro ex s r hs he hc
    unfold handleCallbackV2
    rw [hs]
    rcases h : ex r.formCode with t | m <;> simp [he, hc, h]

/-- C2 amended, witness. -/
theorem callback_state_cleared_witness :
    (handleCallbackV2 (fun _ => .token "tok") ⟨some "st1", none⟩
        ⟨"", "example.com", "st1", "", "c0"⟩).values.state = none :=
  callback_state_cleared.2 (fun _ => .token "tok") ⟨some "st1", none⟩
    ⟨"", "example.com", "st1", "", "c0"⟩ rfl rfl (by decide)

/-- C3 counterexample: the unauthorized message produced by `HandleBooks` is
"User not authorized. Use the /google/connect endpoint.", not the claimed
"User not authorized. Use the connect endpoint.". -/
theorem handleBooks_body_counterexample :
    ((handleBooks ⟨fun _ => .ok (), fun _ => .ok [], fun _ _ => .ok ()⟩
        ⟨none, none⟩ ⟨"", "example.com", "", "", ""⟩).err.map Error.message =
      some "User not authorized. Use the /google/connect endpoint.") ∧
    ("User not authorized. Use the /google/connect endpoint." ≠
      "User not authorized. Use the connect endpoint.") := by
  exact ⟨by decide, by decide⟩

/-- C3 amended: for every session without an `accessToken` string, every
request and every books-listing collaborator, `HandleBooks` fails with HTTP
401 and message "User not authorized. Use the /google/connect endpoint."
(sent by `http.Error` with a trailing newline), and the collaborator chain is
never entered. -/
theorem handleBooks_unauthorized (c : BooksCollab) (s : SessionValues)
    (r : Request) (h : s.accessToken = none) :
    handleBooks c s r =
      ⟨some ⟨"User not authorized. Use the /google/connect endpoint.", 401⟩, false⟩ ∧
    serveError (handleBooks c s r).err =
      some ⟨401, "User not authorized. Use the /google/connect endpoint.\n"⟩ := by
  have hb : handleBooks c s r =
      ⟨some ⟨"User not authorized. Use the /google/connect endpoint.", 401⟩, false⟩ := by
    unfold handleBooks
    rw [h]
    rfl
  exact ⟨hb, by rw [hb]; rfl⟩

/-- C3 amended, witness. -/
theorem handleBooks_unauthorized_witness :
    handleBooks ⟨fun _ => .ok (), fun _ => .ok [], fun _ _ => .ok ()⟩
        ⟨none, none⟩ ⟨"", "example.com", "", "", ""⟩ =
      ⟨some ⟨"User not authorized. Use the /google/connect endpoint.", 401⟩, false⟩ :=
  (handleBooks_unauthorized ⟨fun _ => .ok (), fun _ => .ok [], fun _ _ => .ok ()⟩
    ⟨none, none⟩ ⟨"", "example.com", "", "", ""⟩ rfl).1

/-- C4: when state validation passes and the request carries a non-empty
`error` parameter, both revisions of `HandleOAuthCallback` fail with the
`CallbackError` message wrapped at HTTP 401, and the result does not depend
on the token-exchange operation at all (it is never invoked), even when a
`code` parameter is present. -/
theorem callback_error_param_no_exchange
    (ex ex' : String → ExchangeResult) (s : SessionValues) (r : Request)
    (hs : s.state = some r.formState) (he : r.formError ≠ "") :
    handleCallbackV1 ex s r = handleCallbackV1 ex' s r ∧
    handleCallbackV2 ex s r = handleCallbackV2 ex' s r ∧
    (handleCallbackV1 ex s r).err =
      some ⟨"Callback received error: " ++ r.formError, 401⟩ ∧
    (handleCallbackV2 ex s r).err =
      some ⟨"Callback received error: " ++ r.formError, 401⟩ := by
  have h1 : ∀ f : String → ExchangeResult,
      handleCallbackV1 f s r =
        ⟨some ⟨"Callback received error: " ++ r.formError, 401⟩,
         { s with state := none }, none, none⟩ := by
    intro f
    unfold handleCallbackV1
    rw [hs]
    simp [he, Wrap, errCallbackError, GoErr.errorString]
  have h2 : ∀ f : String → ExchangeResult,
      handleCallbackV2 f s r =
        ⟨some ⟨"Callback received error: " ++ r.formError, 401⟩, s, none, none⟩ := by
    intro f
    unfold handleCallbackV2
    rw [hs]
    simp [he, Wrap, errCallbackError, GoErr.errorString]
  refine ⟨by rw [h1, h1], by rw [h2, h2], by rw [h1], by rw [h2]⟩

/-- C4, witness. -/
theorem callback_error_param_no_exchange_witness :
    (handleCallbackV1 (fun _ => .token "tok") ⟨some "st1", none⟩
        ⟨"", "example.com", "st1", "access_denied", "c0"⟩).err =
      some ⟨"Callback received error: " ++ "access_denied", 401⟩ :=
  (callback_error_param_no_exchange (fun _ => .token "tok") (fun _ => .failure "x")
    ⟨some "st1", none⟩ ⟨"", "example.com", "st1", "access_denied", "c0"⟩
    rfl (by decide)).2.2.1

/-- C5: on a session already holding an `accessToken`, `HandleConnect`
responds 200 with body "Connected!", performs no redirect, writes nothing
new into the session (the in-memory values are the input values) and never
calls `session.Save`. -/
theorem connect_authenticated_noop (googleRedirectURL fresh : String)
    (s : SessionValues) (r : Request) (t : String) (h : s.accessToken = some t) :
    handleConnect googleRedirectURL fresh s r =
      ⟨none, s, none, ["Connected!"], none, 200⟩ := by
  unfold handleConnect
  rw [h]

/-- C5, witness. -/
theorem connect_authenticated_noop_witness :
    handleConnect "" "fresh1" ⟨none, some "tok"⟩ ⟨"", "example.com", "", "", ""⟩ =
      ⟨none, ⟨none, some "tok"⟩, none, ["Connected!"], none, 200⟩ :=
  connect_authenticated_noop "" "fresh1" ⟨none, some "tok"⟩
    ⟨"", "example.com", "", "", ""⟩ "tok" rfl

/-- C6: redirect-URL resolution returns a non-empty configured override
verbatim, ignoring the request; with an empty override it returns
`scheme://host` plus the fixed callback path, the scheme defaulting to
`"http"` exactly when the request URL's scheme is empty. -/
theorem resolveRedirectURL_spec (googleRedirectURL : String) (r : Request) :
    (googleRedirectURL ≠ "" →
      resolveRedirectURL googleRedirectURL r = googleRedirectURL) ∧
    (googleRedirectURL = "" →
      resolveRedirectURL googleRedirectURL r =
        (if r.urlScheme = "" then "http" else r.urlScheme) ++ "://" ++ r.host ++
          oauthCallbackPath) := by
  constructor
  · intro h
    simp [resolveRedirectURL, defaultTo, h]
  · intro h
    simp [resolveRedirectURL, defaultTo, h, buildRedirectURL]

/-- C6, witness. -/
theorem resolveRedirectURL_spec_witness :
    (resolveRedirectURL "https://x.example/cb" ⟨"https", "example.com", "", "", ""⟩ =
      "https://x.example/cb") ∧
    (resolveRedirectURL "" ⟨"", "example.com", "", "", ""⟩ =
      (if ("" : String) = "" then "http" else "") ++ "://" ++ "example.com" ++
        oauthCallbackPath) :=
  ⟨(resolveRedirectURL_spec "https://x.example/cb"
      ⟨"https", "example.com", "", "", ""⟩).1 (by decide),
   (resolveRedirectURL_spec "" ⟨"", "example.com", "", "", ""⟩).2 rfl⟩

/-- C7 [refuted by the code]: when the revoke transport call fails,
`HandleDisconnect` does not return the `RevokeFailed` error — `http.Get`
returned a nil response, and the `defer resp.Body.Close()` placed before the
`err != nil` check dereferences it, panicking instead. -/
theorem disconnect_revoke_failure_panics :
    handleDisconnect (fun _ => .transportError "connection refused")
        ⟨none, some "tok"⟩ =
      .panicked "runtime error: invalid memory address or nil pointer dereference" := by
  decide

/-- C8: whenever the revoke HTTP call returns a response — whatever its HTTP
status code, including 4xx/5xx — `HandleDisconnect` on a session holding an
`accessToken` clears both `state` and `accessToken`, saves the cleared
session, and responds "User disconnected!". -/
theorem disconnect_response_always_clears (httpStatus : Nat) (s : SessionValues)
    (t : String) (h : s.accessToken = some t) :
    handleDisconnect (fun _ => .response httpStatus) s =
      .ok ⟨none, ⟨none, none⟩, some ⟨none, none⟩, ["User disconnected!"]⟩ := by
  unfold handleDisconnect
  rw [h]

/-- C8, witness. -/
theorem disconnect_response_always_clears_witness :
    handleDisconnect (fun _ => .response 403) ⟨some "st1", some "tok"⟩ =
      .ok ⟨none, ⟨none, none⟩, some ⟨none, none⟩, ["User disconnected!"]⟩ :=
  disconnect_response_always_clears 403 ⟨some "st1", some "tok"⟩ "tok" rfl

end MeaLibris
